import Mathlib

/-!
Shallow embedding of the core pipeline of `src/streamlit_app.py`
(`validate_geojson`, `analyze_geojson`, `compare_geojson`) over a model of
parsed JSON values.  Python semantics that matter here are made explicit:
dynamic attribute/method access that raises on wrongly-typed values is
modelled in the `Except String` monad (the error string names the Python
exception), Python dict lookups become association-list lookups, Python
sets of keys become duplicate-free lists compared as sets, and JSON numbers
are modelled as integers (no claim depends on float behaviour).
-/

/-- A parsed JSON value as handed to the pipeline by `json.loads`. -/
inductive Json where
  | null
  | bool (b : Bool)
  | num (n : Int)
  | str (s : String)
  | arr (items : List Json)
  | obj (entries : List (String × Json))

mutual

/-- Structural equality test on JSON values. -/
def Json.beq : Json → Json → Bool
  | .null, .null => true
  | .bool a, .bool b => a == b
  | .num a, .num b => a == b
  | .str a, .str b => a == b
  | .arr a, .arr b => Json.beqList a b
  | .obj a, .obj b => Json.beqObj a b
  | _, _ => false

/-- Structural equality test on JSON arrays. -/
def Json.beqList : List Json → List Json → Bool
  | [], [] => true
  | a :: as, b :: bs => Json.beq a b && Json.beqList as bs
  | _, _ => false

/-- Structural equality test on JSON object entry lists. -/
def Json.beqObj : List (String × Json) → List (String × Json) → Bool
  | [], [] => true
  | (k, v) :: as, (l, w) :: bs => k == l && Json.beq v w && Json.beqObj as bs
  | _, _ => false

end

mutual

theorem Json.eq_of_beq : ∀ (a b : Json), Json.beq a b = true → a = b
  | .null, .null, _ => rfl
  | .null, .bool _, h => by simp [Json.beq] at h
  | .null, .num _, h => by simp [Json.beq] at h
  | .null, .str _, h => by simp [Json.beq] at h
  | .null, .arr _, h => by simp [Json.beq] at h
  | .null, .obj _, h => by simp [Json.beq] at h
  | .bool _, .null, h => by simp [Json.beq] at h
  | .bool x, .bool y, h => by simp [Json.beq] at h; rw [h]
  | .bool _, .num _, h => by simp [Json.beq] at h
  | .bool _, .str _, h => by simp [Json.beq] at h
  | .bool _, .arr _, h => by simp [Json.beq] at h
  | .bool _, .obj _, h => by simp [Json.beq] at h
  | .num _, .null, h => by simp [Json.beq] at h
  | .num _, .bool _, h => by simp [Json.beq] at h
  | .num x, .num y, h => by simp [Json.beq] at h; rw [h]
  | .num _, .str _, h => by simp [Json.beq] at h
  | .num _, .arr _, h => by simp [Json.beq] at h
  | .num _, .obj _, h => by simp [Json.beq] at h
  | .str _, .null, h => by simp [Json.beq] at h
  | .str _, .bool _, h => by simp [Json.beq] at h
  | .str _, .num _, h => by simp [Json.beq] at h
  | .str x, .str y, h => by simp [Json.beq] at h; rw [h]
  | .str _, .arr _, h => by simp [Json.beq] at h
  | .str _, .obj _, h => by simp [Json.beq] at h
  | .arr _, .null, h => by simp [Json.beq] at h
  | .arr _, .bool _, h => by simp [Json.beq] at h
  | .arr _, .num _, h => by simp [Json.beq] at h
  | .arr _, .str _, h => by simp [Json.beq] at h
  | .arr a, .arr b, h => by
      simp only [Json.beq] at h
      rw [Json.eq_of_beqList a b h]
  | .arr _, .obj _, h => by simp [Json.beq] at h
  | .obj _, .null, h => by simp [Json.beq] at h
  | .obj _, .bool _, h => by simp [Json.beq] at h
  | .obj _, .num _, h => by simp [Json.beq] at h
  | .obj _, .str _, h => by simp [Json.beq] at h
  | .obj _, .arr _, h => by simp [Json.beq] at h
  | .obj a, .obj b, h => by
      simp only [Json.beq] at h
      rw [Json.eq_of_beqObj a b h]

theorem Json.eq_of_beqList : ∀ (as bs : List Json), Json.beqList as bs = true → as = bs
  | [], [], _ => rfl
  | [], _ :: _, h => by simp [Json.beqList] at h
  | _ :: _, [], h => by simp [Json.beqList] at h
  | a :: as, b :: bs, h => by
      simp only [Json.beqList, Bool.and_eq_true] at h
      rw [Json.eq_of_beq a b h.1, Json.eq_of_beqList as bs h.2]

theorem Json.eq_of_beqObj :
    ∀ (as bs : List (String × Json)), Json.beqObj as bs = true → as = bs
  | [], [], _ => rfl
  | [], _ :: _, h => by simp [Json.beqObj] at h
  | _ :: _, [], h => by simp [Json.beqObj] at h
  | (k, v) :: as, (l, w) :: bs, h => by
      simp only [Json.beqObj, Bool.and_eq_true, beq_iff_eq] at h
      rw [h.1.1, Json.eq_of_beq v w h.1.2, Json.eq_of_beqObj as bs h.2]

end

mutual

theorem Json.beq_refl : ∀ a : Json, Json.beq a a = true
  | .null => rfl
  | .bool b => by simp [Json.beq]
  | .num n => by simp [Json.beq]
  | .str s => by simp [Json.beq]
  | .arr l => by simp only [Json.beq]; exact Json.beqList_refl l
  | .obj m => by simp only [Json.beq]; exact Json.beqObj_refl m

theorem Json.beqList_refl : ∀ l : List Json, Json.beqList l l = true
  | [] => rfl
  | a :: as => by
      simp only [Json.beqList, Bool.and_eq_true]
      exact ⟨Json.beq_refl a, Json.beqList_refl as⟩

theorem Json.beqObj_refl : ∀ m : List (String × Json), Json.beqObj m m = true
  | [] => rfl
  | (k, v) :: rest => by
      simp only [Json.beqObj, Bool.and_eq_true, beq_iff_eq]
      exact ⟨⟨trivial, Json.beq_refl v⟩, Json.beqObj_refl rest⟩

end

theorem Json.beq_iff_eq (a b : Json) : Json.beq a b = true ↔ a = b :=
  ⟨Json.eq_of_beq a b, fun h => h ▸ Json.beq_refl a⟩

instance : DecidableEq Json := fun a b => decidable_of_iff _ (Json.beq_iff_eq a b)

mutual

/-- Python `==` on JSON values.  Unlike structural equality, Python treats
`bool` as an `int` subclass: `True == 1` and `False == 0`, recursively
inside containers.  Values of otherwise unrelated types compare unequal;
`None` equals only `None`. -/
def Json.pyEq : Json → Json → Bool
  | .null, b => match b with | .null => true | _ => false
  | .bool a, b =>
    match b with
    | .bool c => a == c
    | .num n => if a then n == 1 else n == 0
    | _ => false
  | .num n, b =>
    match b with
    | .num m => n == m
    | .bool c => if c then n == 1 else n == 0
    | _ => false
  | .str s, b => match b with | .str t => s == t | _ => false
  | .arr a, b => match b with | .arr c => Json.pyEqList a c | _ => false
  | .obj a, b =>
    match b with
    | .obj c => a.length == c.length && Json.pyEqObj a c
    | _ => false

/-- Python `==` on lists: same length and pairwise-equal elements. -/
def Json.pyEqList : List Json → List Json → Bool
  | [], bs => bs.isEmpty
  | x :: xs, bs =>
    match bs with
    | y :: ys => Json.pyEq x y && Json.pyEqList xs ys
    | [] => false

/-- Python dict `==`, after the length check: every entry of the first dict
has a Python-equal value under the same key in the second (CPython compares
dicts by length plus this one-sided containment). -/
def Json.pyEqObj : List (String × Json) → List (String × Json) → Bool
  | [], _ => true
  | (k, v) :: rest, b =>
    (match List.lookup k b with
     | some w => Json.pyEq v w
     | none => false) && Json.pyEqObj rest b

end

/-- Python `==` lifted to the `None`-or-value results of one-argument
`.get`: `None` equals only `None`. -/
def pyEqOpt : Option Json → Option Json → Bool
  | none, none => true
  | some v, some w => Json.pyEq v w
  | _, _ => false

/-- Python truthiness of a JSON value (`if feature["properties"]:`). -/
def pyTruthy : Json → Bool
  | .null => false
  | .bool b => b
  | .num n => n != 0
  | .str s => s != ""
  | .arr l => !l.isEmpty
  | .obj m => !m.isEmpty

/-- `d.get(k, default)`: dict lookup with default; raises AttributeError on
non-dict values, exactly as Python method access does. -/
def pyGetD (d : Json) (k : String) (default : Json) : Except String Json :=
  match d with
  | .obj m => .ok ((List.lookup k m).getD default)
  | _ => .error "AttributeError: object has no attribute get"

/-- `d.get(k)`: one-argument dict lookup (defaulting to `None`, modelled as
`Option`); raises AttributeError on non-dict values. -/
def pyGetOpt (d : Json) (k : String) : Except String (Option Json) :=
  match d with
  | .obj m => .ok (List.lookup k m)
  | _ => .error "AttributeError: object has no attribute get"

/-- `len(v)`: defined on strings, lists and dicts; TypeError otherwise. -/
def pyLen : Json → Except String Nat
  | .str s => .ok s.length
  | .arr l => .ok l.length
  | .obj m => .ok m.length
  | _ => .error "TypeError: object has no len"

/-- `for x in v`: iteration order of Python values — list elements, string
characters (as one-character strings), dict keys; TypeError otherwise. -/
def pyIterate : Json → Except String (List Json)
  | .arr l => .ok l
  | .str s => .ok (s.data.map fun c => .str (String.singleton c))
  | .obj m => .ok (m.map fun p => .str p.1)
  | _ => .error "TypeError: object is not iterable"

/-- Substring test on the underlying character lists, for `k in s` on
Python strings. -/
def strContains (needle : List Char) : List Char → Bool
  | [] => needle.isEmpty
  | c :: rest => needle.isPrefixOf (c :: rest) || strContains needle rest

/-- `k in v` for a string key `k`: dict-key membership, list membership,
substring test on strings; TypeError on non-container values. -/
def pyContains (k : String) : Json → Except String Bool
  | .obj m => .ok (m.any fun p => p.1 == k)
  | .arr l => .ok (l.any fun x => x = .str k)
  | .str s => .ok (strContains k.data s.data)
  | _ => .error "TypeError: argument is not iterable"

/-- `v[k]` for a string key `k`: dict indexing (KeyError when absent);
TypeError on every other value. -/
def pyIndex (v : Json) (k : String) : Except String Json :=
  match v with
  | .obj m =>
    match List.lookup k m with
    | some x => .ok x
    | none => .error "KeyError"
  | _ => .error "TypeError: value is not subscriptable"

/-- `v.keys()`: dict keys in insertion order; AttributeError otherwise. -/
def pyKeys : Json → Except String (List String)
  | .obj m => .ok (m.map Prod.fst)
  | _ => .error "AttributeError: object has no attribute keys"

/-- `acc.update(ks)` on a Python set modelled as a duplicate-free list:
append each key not already present. -/
def addKeys (acc : List String) (ks : List String) : List String :=
  ks.foldl (fun a k => if k ∈ a then a else a ++ [k]) acc

/-- The nine type strings of the schema enum in `validate_geojson`. -/
def geojsonTypeNames : List String :=
  ["FeatureCollection", "Feature", "Point", "LineString", "Polygon",
   "MultiPoint", "MultiLineString", "MultiPolygon", "GeometryCollection"]

/-- Schema conformance of the `features` field: an array when present. -/
def featuresFieldOk (m : List (String × Json)) : Bool :=
  match List.lookup "features" m with
  | some (.arr _) => true
  | none => true
  | some _ => false

/-- Schema conformance of the `geometry` field: an object when present. -/
def geometryFieldOk (m : List (String × Json)) : Bool :=
  match List.lookup "geometry" m with
  | some (.obj _) => true
  | none => true
  | some _ => false

/-- Schema conformance of the `properties` field: an object when present. -/
def propertiesFieldOk (m : List (String × Json)) : Bool :=
  match List.lookup "properties" m with
  | some (.obj _) => true
  | none => true
  | some _ => false

/-- Schema conformance of the `coordinates` field: an array when present. -/
def coordinatesFieldOk (m : List (String × Json)) : Bool :=
  match List.lookup "coordinates" m with
  | some (.arr _) => true
  | none => true
  | some _ => false

/-- Schema conformance of the four loosely-typed auxiliary fields. -/
def auxFieldsOk (m : List (String × Json)) : Bool :=
  featuresFieldOk m && geometryFieldOk m && propertiesFieldOk m && coordinatesFieldOk m

/-- The jsonschema check of the fixed schema of `validate_geojson`, on an
object: `type` is required and must be a string of the enum; `features` and
`coordinates` must be arrays when present; `geometry` and `properties` must
be objects when present.  Returns a violation message, `none` when the
instance validates. -/
def schemaErrObj (m : List (String × Json)) : Option String :=
  match List.lookup "type" m with
  | none => some "type is a required property"
  | some t =>
    if (match t with | .str s => decide (s ∈ geojsonTypeNames) | _ => false) then
      if !featuresFieldOk m then some "features is not of type array"
      else if !geometryFieldOk m then some "geometry is not of type object"
      else if !propertiesFieldOk m then some "properties is not of type object"
      else if !coordinatesFieldOk m then some "coordinates is not of type array"
      else none
    else some "type is not one of the enumerated values"

/-- Exceptions of the Python `try` body of `validate_geojson`:
`jsonschema.exceptions.ValidationError` and the catch-all `Exception`. -/
inductive PyExc where
  | validationError (msg : String)
  | otherError (msg : String)
deriving DecidableEq

/-- The `try` body of `validate_geojson`: run the jsonschema validation
(raising `ValidationError` on violation), then the two presence checks for
`FeatureCollection.features` and `Feature.geometry`. -/
def validateBody (d : Json) : Except PyExc (Bool × String) :=
  match d with
  | .obj m =>
    match schemaErrObj m with
    | some e => .error (.validationError e)
    | none =>
      if List.lookup "type" m = some (.str "FeatureCollection")
          ∧ List.lookup "features" m = none then
        .ok (false, "FeatureCollection must have features array")
      else if List.lookup "type" m = some (.str "Feature")
          ∧ List.lookup "geometry" m = none then
        .ok (false, "Feature must have geometry property")
      else
        .ok (true, "Valid GeoJSON")
  | _ => .error (.validationError "instance is not of type object")

/-- `validate_geojson`: the `try`/`except` wrapper — every exception of the
body is turned into a `(False, message)` result, so the function is total. -/
def validate_geojson (d : Json) : Bool × String :=
  match validateBody d with
  | .ok r => r
  | .error (.validationError m) => (false, "Invalid GeoJSON: " ++ m)
  | .error (.otherError m) => (false, "Error during validation: " ++ m)

/-- The seven geometry type strings of the `elif` list in `analyze_geojson`. -/
def geometryTypeNames : List String :=
  ["Point", "LineString", "Polygon", "MultiPoint",
   "MultiLineString", "MultiPolygon", "GeometryCollection"]

/-- The result dict of `analyze_geojson`: each key is present or absent
depending on the branch taken, never `None`-valued. -/
structure Analysis where
  type : Json
  feature_count : Option Nat
  geometry_types : Option (List (Json × Nat))
  geometry_type : Option Json
  property_keys : Option (List String)

/-- `feature_types[geo_type] = feature_types.get(geo_type, 0) + 1` on a dict
modelled as an association list: increment in place, or append a new entry. -/
def bumpTally : List (Json × Nat) → Json → List (Json × Nat)
  | [], g => [(g, 1)]
  | (k, n) :: rest, g =>
    if k = g then (k, n + 1) :: rest else (k, n) :: bumpTally rest g

/-- Dict insertion with an arbitrary JSON key: Python raises TypeError on
unhashable keys (lists and dicts). -/
def bump (ft : List (Json × Nat)) (g : Json) : Except String (List (Json × Nat)) :=
  match g with
  | .arr _ => .error "TypeError: unhashable type list"
  | .obj _ => .error "TypeError: unhashable type dict"
  | _ => .ok (bumpTally ft g)

/-- Occurrence count recorded in the tally for a key (0 when absent). -/
def lookupCount : List (Json × Nat) → Json → Nat
  | [], _ => 0
  | (k, n) :: rest, g => if k = g then n else lookupCount rest g

/-- One iteration of the property-key collection shared by the
`analyze_geojson` loop (lines 69-70) and both `compare_geojson` loops
(lines 111-117): `if "properties" in feature and feature["properties"]:
keys.update(feature["properties"].keys())`. -/
def collectStep (acc : List String) (f : Json) : Except String (List String) :=
  match pyContains "properties" f with
  | .error e => .error e
  | .ok c =>
    if c then
      match pyIndex f "properties" with
      | .error e => .error e
      | .ok v =>
        if pyTruthy v then
          match pyKeys v with
          | .error e => .error e
          | .ok ks => .ok (addKeys acc ks)
        else .ok acc
    else .ok acc

/-- `feature.get("geometry", {}).get("type", "Unknown")` (line 65 / 77). -/
def geoStep (f : Json) : Except String Json :=
  match pyGetD f "geometry" (.obj []) with
  | .error e => .error e
  | .ok geo => pyGetD geo "type" (.str "Unknown")

/-- The `for feature in features` loop of `analyze_geojson` (lines 64-70):
tally `feature.get("geometry", {}).get("type", "Unknown")`, then collect
property keys. -/
def analyzeLoop : List Json → List (Json × Nat) → List String →
    Except String (List (Json × Nat) × List String)
  | [], ft, pk => .ok (ft, pk)
  | f :: rest, ft, pk =>
    match geoStep f with
    | .error e => .error e
    | .ok g =>
      match bump ft g with
      | .error e => .error e
      | .ok ft2 =>
        match collectStep pk f with
        | .error e => .error e
        | .ok pk2 => analyzeLoop rest ft2 pk2

/-- A key-collection loop of `compare_geojson` (lines 111-113 / 115-117). -/
def collectKeys : List Json → List String → Except String (List String)
  | [], acc => .ok acc
  | f :: rest, acc =>
    match collectStep acc f with
    | .error e => .error e
    | .ok acc2 => collectKeys rest acc2

/-- Lines 80-81 of `analyze_geojson`: the `property_keys` entry of a
`Feature` report, set only when `properties` is present and truthy. -/
def featurePropsKeys (data : Json) : Except String (Option (List String)) :=
  match pyContains "properties" data with
  | .error e => .error e
  | .ok c =>
    if c then
      match pyIndex data "properties" with
      | .error e => .error e
      | .ok v =>
        if pyTruthy v then
          match pyKeys v with
          | .error e => .error e
          | .ok ks => .ok (some ks)
        else .ok none
    else .ok none

/-- `analyze_geojson`: branch on `data.get("type", "Unknown")`, building the
report of the corresponding branch; dynamic access on wrongly-typed values
raises (propagated as `.error`), exactly as the Python does. -/
def analyze_geojson (data : Json) : Except String Analysis :=
  match pyGetD data "type" (.str "Unknown") with
  | .error e => .error e
  | .ok t =>
    if t = .str "FeatureCollection" then
      match pyGetD data "features" (.arr []) with
      | .error e => .error e
      | .ok features =>
        match pyLen features with
        | .error e => .error e
        | .ok n =>
          match pyIterate features with
          | .error e => .error e
          | .ok items =>
            match analyzeLoop items [] [] with
            | .error e => .error e
            | .ok (ft, pk) => .ok ⟨t, some n, some ft, none, some pk⟩
    else if t = .str "Feature" then
      match geoStep data with
      | .error e => .error e
      | .ok g =>
        match featurePropsKeys data with
        | .error e => .error e
        | .ok pks => .ok ⟨t, none, none, some g, pks⟩
    else if t ∈ geometryTypeNames.map Json.str then
      .ok ⟨t, none, none, some t, none⟩
    else
      .ok ⟨t, none, none, none, none⟩

/-- The result dict of `compare_geojson`: `different_types` always present,
the six count/key fields present only when both inputs are
FeatureCollections. -/
structure Comparison where
  different_types : Bool
  feature_count_1 : Option Nat
  feature_count_2 : Option Nat
  feature_count_diff : Option Int
  unique_keys_1 : Option (List String)
  unique_keys_2 : Option (List String)
  common_keys : Option (List String)

/-- `compare_geojson`: `different_types` is the Python `!=` of the two
`.get("type")` values (`None` marker for absent fields, `bool`/`int`
identification included); counts and property-key set differences only when
both types are `"FeatureCollection"`. -/
def compare_geojson (g1 g2 : Json) : Except String Comparison :=
  match pyGetOpt g1 "type" with
  | .error e => .error e
  | .ok t1 =>
    match pyGetOpt g2 "type" with
    | .error e => .error e
    | .ok t2 =>
      if t1 = some (.str "FeatureCollection") ∧ t2 = some (.str "FeatureCollection") then
        match pyGetD g1 "features" (.arr []) with
        | .error e => .error e
        | .ok f1 =>
          match pyGetD g2 "features" (.arr []) with
          | .error e => .error e
          | .ok f2 =>
            match pyLen f1 with
            | .error e => .error e
            | .ok n1 =>
              match pyLen f2 with
              | .error e => .error e
              | .ok n2 =>
                match pyIterate f1 with
                | .error e => .error e
                | .ok items1 =>
                  match collectKeys items1 [] with
                  | .error e => .error e
                  | .ok k1 =>
                    match pyIterate f2 with
                    | .error e => .error e
                    | .ok items2 =>
                      match collectKeys items2 [] with
                      | .error e => .error e
                      | .ok k2 =>
                        .ok ⟨!(pyEqOpt t1 t2), some n1, some n2,
                          some ((n1 : Int) - (n2 : Int)),
                          some (k1.filter fun s => s ∉ k2),
                          some (k2.filter fun s => s ∉ k1),
                          some (k1.filter fun s => s ∈ k2)⟩
      else
        .ok ⟨!(pyEqOpt t1 t2), none, none, none, none, none, none⟩

/-- The geometry-type string a well-typed feature contributes to the tally:
`feature.get("geometry", {}).get("type", "Unknown")` as a pure projection
(defaulting arbitrarily where the Python would raise). -/
def geoTypeOf (f : Json) : Json :=
  match f with
  | .obj m =>
    match List.lookup "geometry" m with
    | none => .str "Unknown"
    | some (.obj g) => (List.lookup "type" g).getD (.str "Unknown")
    | some _ => .str "Unknown"
  | _ => .str "Unknown"

/-- The property keys a feature contributes to the key union, as a pure
projection (defaulting to no keys where the Python would raise). -/
def featKeysOf (f : Json) : List String :=
  match f with
  | .obj m =>
    match List.lookup "properties" m with
    | some v =>
      if pyTruthy v then
        match v with
        | .obj pm => pm.map Prod.fst
        | _ => []
      else []
    | none => []
  | _ => []

/-- The pure refold of the tally computed by the `analyze_geojson` loop. -/
def tallyFold (ft : List (Json × Nat)) (fs : List Json) : List (Json × Nat) :=
  fs.foldl (fun a f => bumpTally a (geoTypeOf f)) ft

/-- The pure refold of the duplicate-free key list collected by the
`analyze_geojson` and `compare_geojson` loops. -/
def keysFold (acc : List String) (fs : List Json) : List String :=
  fs.foldl (fun a f => addKeys a (featKeysOf f)) acc

/-- The union of the property-key sets of a list of features. -/
def keySetUnion (fs : List Json) : Finset String :=
  fs.foldr (fun f s => (featKeysOf f).toFinset ∪ s) ∅

/-- A feature object on which the key-collection step cannot raise: it is a
dict whose `properties` entry, when present and truthy, is a dict. -/
def keysOk (f : Json) : Bool :=
  match f with
  | .obj m =>
    match List.lookup "properties" m with
    | none => true
    | some (.obj _) => true
    | some v => !pyTruthy v
  | _ => false

/-- A feature object on which the geometry-tally step cannot raise: its
`geometry` entry, when present, is a dict whose `type` entry, when present,
is a string. -/
def geomOk (f : Json) : Bool :=
  match f with
  | .obj m =>
    match List.lookup "geometry" m with
    | none => true
    | some (.obj g) =>
      match List.lookup "type" g with
      | none => true
      | some (.str _) => true
      | some _ => false
    | some _ => false
  | _ => false

/-- A feature object the `analyze_geojson` loop processes without raising. -/
def featureOk (f : Json) : Bool :=
  geomOk f && keysOk f

/-! ### Helper lemmas -/

theorem append_ne_empty_left (s t : String) (h : s.data ≠ []) : s ++ t ≠ "" := by
  intro he
  apply h
  have hd := congrArg String.data he
  rw [String.data_append] at hd
  exact (List.append_eq_nil.mp hd).1

theorem schemaErrObj_none_of_ok (m : List (String × Json)) (t : String)
    (ht : List.lookup "type" m = some (.str t)) (htn : t ∈ geojsonTypeNames)
    (haux : auxFieldsOk m = true) : schemaErrObj m = none := by
  unfold auxFieldsOk at haux
  simp only [Bool.and_eq_true] at haux
  unfold schemaErrObj
  rw [ht]
  simp [htn, haux.1.1.1, haux.1.1.2, haux.1.2, haux.2]

theorem validateBody_of_schema_ok (m : List (String × Json))
    (hs : schemaErrObj m = none) :
    validateBody (.obj m) =
      if List.lookup "type" m = some (.str "FeatureCollection")
          ∧ List.lookup "features" m = none then
        .ok (false, "FeatureCollection must have features array")
      else if List.lookup "type" m = some (.str "Feature")
          ∧ List.lookup "geometry" m = none then
        .ok (false, "Feature must have geometry property")
      else
        .ok (true, "Valid GeoJSON") := by
  simp only [validateBody, hs]

/-! ### Claim C2 -/

/-- C2: for every input object that either lacks a `type` field or whose
`type` value is not one of the nine recognized GeoJSON type strings,
`validate_geojson` returns `valid = false`. -/
theorem validate_false_of_bad_type (m : List (String × Json))
    (h : ∀ v, List.lookup "type" m = some v → v ∉ geojsonTypeNames.map Json.str) :
    (validate_geojson (.obj m)).1 = false := by
  have hs : ∃ e, schemaErrObj m = some e := by
    unfold schemaErrObj
    cases ht : List.lookup "type" m with
    | none => exact ⟨_, rfl⟩
    | some t =>
      have hne := h t ht
      cases t with
      | str s =>
        have hs' : s ∉ geojsonTypeNames := fun hmem => hne (List.mem_map_of_mem _ hmem)
        simp [hs']
      | null => exact ⟨_, rfl⟩
      | bool b => exact ⟨_, rfl⟩
      | num n => exact ⟨_, rfl⟩
      | arr l => exact ⟨_, rfl⟩
      | obj o => exact ⟨_, rfl⟩
  obtain ⟨e, hs⟩ := hs
  unfold validate_geojson
  simp only [validateBody, hs]

/-- Witness for C2 at the empty object and at a non-GeoJSON `type` value. -/
theorem validate_false_of_bad_type_witness :
    (validate_geojson (.obj [])).1 = false
    ∧ (validate_geojson (.obj [("type", .str "Polygonn")])).1 = false :=
  ⟨validate_false_of_bad_type [] (by decide),
   validate_false_of_bad_type [("type", .str "Polygonn")] (by decide)⟩

/-! ### Claim C3 -/

/-- C3 counterexample: a `FeatureCollection` whose `features` field is
present but not an array is rejected (the schema type-checks `features`),
so validity does not hold "regardless of its contents"; likewise a
`Feature` with a `geometry` object but a non-object `properties` field is
rejected. -/
theorem validate_presence_claim_counterexample :
    (validate_geojson (.obj [("type", .str "FeatureCollection"),
      ("features", .num 5)])).1 = false
    ∧ (validate_geojson (.obj [("type", .str "Feature"), ("geometry", .obj []),
      ("properties", .num 5)])).1 = false := by
  exact ⟨rfl, rfl⟩

/-- C3 amended: for objects whose schema-typed auxiliary fields
(`features`/`geometry`/`properties`/`coordinates`, when present) match
their declared schema types, a `FeatureCollection` validates exactly when
`features` is present, and a `Feature` validates exactly when `geometry`
is present. -/
theorem validate_required_field_presence (m : List (String × Json))
    (haux : auxFieldsOk m = true) :
    ((List.lookup "type" m = some (.str "FeatureCollection")) →
      ((validate_geojson (.obj m)).1 = true ↔ (List.lookup "features" m).isSome)) ∧
    ((List.lookup "type" m = some (.str "Feature")) →
      ((validate_geojson (.obj m)).1 = true ↔ (List.lookup "geometry" m).isSome)) := by
  constructor
  · intro ht
    have hs := schemaErrObj_none_of_ok m "FeatureCollection" ht (by decide) haux
    unfold validate_geojson
    rw [validateBody_of_schema_ok m hs]
    cases hf : List.lookup "features" m with
    | none => rw [if_pos ⟨ht, rfl⟩]; simp
    | some v =>
      rw [if_neg (by simp [hf]), if_neg (by simp [ht])]
      simp
  · intro ht
    have hs := schemaErrObj_none_of_ok m "Feature" ht (by decide) haux
    unfold validate_geojson
    rw [validateBody_of_schema_ok m hs]
    cases hg : List.lookup "geometry" m with
    | none =>
      rw [if_neg (by simp [ht]), if_pos ⟨ht, rfl⟩]
      simp
    | some v =>
      rw [if_neg (by simp [ht]), if_neg (by simp [hg])]
      simp

/-- Witness for C3 at the four concrete documents of the spec. -/
theorem validate_required_field_presence_witness :
    (validate_geojson (.obj [("type", .str "FeatureCollection")])).1 = false
    ∧ (validate_geojson (.obj [("type", .str "FeatureCollection"),
        ("features", .arr [])])).1 = true
    ∧ (validate_geojson (.obj [("type", .str "Feature")])).1 = false
    ∧ (validate_geojson (.obj [("type", .str "Feature"),
        ("geometry", .obj [("type", .str "Point"),
          ("coordinates", .arr [.num 0, .num 0])])])).1 = true := by
  refine ⟨?_, ?_, ?_, ?_⟩
  · have h := ((validate_required_field_presence
      [("type", .str "FeatureCollection")] (by decide)).1 rfl)
    simp only [List.lookup] at h
    cases hv : (validate_geojson (.obj [("type", .str "FeatureCollection")])).1
    · rfl
    · exact absurd (h.mp hv) (by decide)
  · exact ((validate_required_field_presence
      [("type", .str "FeatureCollection"), ("features", .arr [])]
      (by decide)).1 rfl).mpr (by decide)
  · have h := ((validate_required_field_presence
      [("type", .str "Feature")] (by decide)).2 rfl)
    cases hv : (validate_geojson (.obj [("type", .str "Feature")])).1
    · rfl
    · exact absurd (h.mp hv) (by decide)
  · exact ((validate_required_field_presence
      [("type", .str "Feature"),
       ("geometry", .obj [("type", .str "Point"),
         ("coordinates", .arr [.num 0, .num 0])])]
      (by decide)).2 rfl).mpr (by decide)

/-! ### Claim C4 -/

/-- C4: `validate_geojson` is a total function into `Bool × String` (the
`try`/`except` wrapper catches every exception of the body, including the
schema violation raised on any non-object or ill-typed input), and every
result carrying `valid = false` carries a non-empty human-readable
message. -/
theorem validate_total_failure (d : Json)
    (h : (validate_geojson d).1 = false) : (validate_geojson d).2 ≠ "" := by
  unfold validate_geojson at h ⊢
  cases hb : validateBody d with
  | ok r =>
    rw [hb] at h
    cases d with
    | obj m =>
      cases hs : schemaErrObj m with
      | some e => simp [validateBody, hs] at hb
      | none =>
        rw [validateBody_of_schema_ok m hs] at hb
        split at hb
        · injection hb with hr
          subst hr
          decide
        · split at hb
          · injection hb with hr
            subst hr
            decide
          · injection hb with hr
            subst hr
            simp at h
    | null => simp [validateBody] at hb
    | bool b => simp [validateBody] at hb
    | num n => simp [validateBody] at hb
    | str s => simp [validateBody] at hb
    | arr l => simp [validateBody] at hb
  | error e =>
    cases e with
    | validationError msg => exact append_ne_empty_left _ _ (by decide)
    | otherError msg => exact append_ne_empty_left _ _ (by decide)

/-- Witness for C4 at a non-object input (the schema raises, the wrapper
returns the `false` variant with a message). -/
theorem validate_total_failure_witness :
    (validate_geojson (.arr [])).1 = false
    ∧ (validate_geojson (.arr [])).2 ≠ "" :=
  ⟨rfl, validate_total_failure (.arr []) rfl⟩

/-! ### Claim C7 -/

/-- C7: when at least one of two object inputs does not carry `type =
"FeatureCollection"`, the comparison report holds only `different_types`
(set by Python inequality of the two `type` values — coinciding with string
inequality on strings, with missing `type` reading as the absent `None`
marker and with the Python identification of booleans with 0/1); every
count/key field is absent. -/
theorem compare_non_collection_only_types (m1 m2 : List (String × Json))
    (h : List.lookup "type" m1 ≠ some (.str "FeatureCollection")
      ∨ List.lookup "type" m2 ≠ some (.str "FeatureCollection")) :
    compare_geojson (.obj m1) (.obj m2) =
      .ok ⟨!(pyEqOpt (List.lookup "type" m1) (List.lookup "type" m2)),
        none, none, none, none, none, none⟩ := by
  unfold compare_geojson
  simp only [pyGetOpt]
  rw [if_neg (by tauto)]

/-- Witness for C7: a FeatureCollection against a Feature. -/
theorem compare_non_collection_only_types_witness :
    compare_geojson (.obj [("type", .str "FeatureCollection"), ("features", .arr [])])
        (.obj [("type", .str "Feature")]) =
      .ok ⟨true, none, none, none, none, none, none⟩ := by
  have h := compare_non_collection_only_types
    [("type", .str "FeatureCollection"), ("features", .arr [])]
    [("type", .str "Feature")] (by decide)
  exact h.trans (by rfl)

/-! ### Claim C1 -/

/-- C1 counterexample: `analyze_geojson` applied to a non-object JSON value
(here the empty array) raises AttributeError on `data.get` instead of
returning a report, so analyze does not succeed on every input value. -/
theorem analyze_raises_on_non_object :
    analyze_geojson (.arr []) = .error "AttributeError: object has no attribute get" :=
  rfl

/-- C1 amended: for every object input whose `type` value (defaulting to
"Unknown") is neither "FeatureCollection" nor "Feature", `analyze_geojson`
succeeds and its report carries the `type` value of the input, or "Unknown" when
the field is absent; on non-object inputs (and on FeatureCollection/Feature
inputs with ill-typed nested fields) it raises instead. -/
theorem analyze_type_field_of_other (m : List (String × Json))
    (h : (List.lookup "type" m).getD (.str "Unknown")
      ∉ ([.str "FeatureCollection", .str "Feature"] : List Json)) :
    analyze_geojson (.obj m) =
      .ok ⟨(List.lookup "type" m).getD (.str "Unknown"), none, none,
        (if (List.lookup "type" m).getD (.str "Unknown") ∈ geometryTypeNames.map Json.str
          then some ((List.lookup "type" m).getD (.str "Unknown")) else none), none⟩ := by
  simp only [List.mem_cons, List.mem_singleton, not_or] at h
  unfold analyze_geojson
  simp only [pyGetD]
  rw [if_neg h.1, if_neg h.2.1]
  by_cases hg : (List.lookup "type" m).getD (.str "Unknown") ∈ geometryTypeNames.map Json.str
  · rw [if_pos hg, if_pos hg]
  · rw [if_neg hg, if_neg hg]

/-- Witness for C1 at a bare geometry object and at the empty object. -/
theorem analyze_type_field_of_other_witness :
    analyze_geojson (.obj [("type", .str "Point")]) =
      .ok ⟨.str "Point", none, none, some (.str "Point"), none⟩
    ∧ analyze_geojson (.obj []) =
      .ok ⟨.str "Unknown", none, none, none, none⟩ :=
  ⟨(analyze_type_field_of_other [("type", .str "Point")] (by decide)).trans (by rfl),
   (analyze_type_field_of_other [] (by decide)).trans (by rfl)⟩

/-- Presence-and-truthiness of the `properties` entry of an object. -/
def propsPresentTruthy (m : List (String × Json)) : Bool :=
  match List.lookup "properties" m with
  | some v => pyTruthy v
  | none => false

/-! ### Inversion lemmas for the loops -/

theorem any_key_eq_lookup (k : String) (m : List (String × Json)) :
    (m.any fun p => p.1 == k) = (List.lookup k m).isSome := by
  induction m with
  | nil => rfl
  | cons p rest ih =>
    obtain ⟨a, b⟩ := p
    by_cases h : a = k
    · subst h
      simp [List.lookup]
    · have h1 : (a == k) = false := beq_eq_false_iff_ne.mpr h
      have h2 : (k == a) = false := beq_eq_false_iff_ne.mpr (Ne.symm h)
      simp [List.lookup, h1, h2, ih]

theorem addKeys_nil (acc : List String) : addKeys acc [] = acc := rfl

theorem collectStep_ok (acc : List String) (f : Json) (acc2 : List String)
    (h : collectStep acc f = .ok acc2) : acc2 = addKeys acc (featKeysOf f) := by
  cases f with
  | null => exact absurd h (by simp [collectStep, pyContains])
  | bool b => exact absurd h (by simp [collectStep, pyContains])
  | num n => exact absurd h (by simp [collectStep, pyContains])
  | str s =>
    simp only [collectStep, pyContains] at h
    split at h
    · simp [pyIndex] at h
    · injection h with h'
      exact h'.symm
  | arr l =>
    simp only [collectStep, pyContains] at h
    split at h
    · simp [pyIndex] at h
    · injection h with h'
      exact h'.symm
  | obj m =>
    simp only [collectStep, pyContains] at h
    by_cases hc : (m.any fun p => p.1 == "properties") = true
    · rw [if_pos hc] at h
      have hl : (List.lookup "properties" m).isSome := by
        rw [← any_key_eq_lookup]; exact hc
      cases hv : List.lookup "properties" m with
      | none => rw [hv] at hl; simp at hl
      | some v =>
        have hpi : pyIndex (.obj m) "properties" = .ok v := by simp [pyIndex, hv]
        rw [hpi] at h
        dsimp only at h
        by_cases ht : pyTruthy v = true
        · rw [if_pos ht] at h
          cases v with
          | obj pm =>
            simp only [pyKeys] at h
            injection h with h'
            rw [← h']
            simp [featKeysOf, hv, ht]
          | null => exact absurd h (by simp [pyKeys])
          | bool b2 => exact absurd h (by simp [pyKeys])
          | num n2 => exact absurd h (by simp [pyKeys])
          | str s2 => exact absurd h (by simp [pyKeys])
          | arr l2 => exact absurd h (by simp [pyKeys])
        · rw [if_neg ht] at h
          injection h with h'
          rw [← h']
          simp [featKeysOf, hv, ht, addKeys_nil]
    · rw [if_neg hc] at h
      injection h with h'
      have hl : List.lookup "properties" m = none := by
        cases hv : List.lookup "properties" m with
        | none => rfl
        | some v =>
          exact absurd (by rw [any_key_eq_lookup, hv]; rfl) hc
      rw [← h']
      simp [featKeysOf, hl, addKeys_nil]

theorem collectStep_of_keysOk (acc : List String) (f : Json)
    (hk : keysOk f = true) :
    collectStep acc f = .ok (addKeys acc (featKeysOf f)) := by
  cases f with
  | null => exact absurd hk (by simp [keysOk])
  | bool b => exact absurd hk (by simp [keysOk])
  | num n => exact absurd hk (by simp [keysOk])
  | str s => exact absurd hk (by simp [keysOk])
  | arr l => exact absurd hk (by simp [keysOk])
  | obj m =>
    simp only [collectStep, pyContains]
    cases hv : List.lookup "properties" m with
    | none =>
      have hc : (m.any fun p => p.1 == "properties") = false := by
        rw [any_key_eq_lookup, hv]; rfl
      simp [hc, featKeysOf, hv, addKeys_nil]
    | some v =>
      have hc : (m.any fun p => p.1 == "properties") = true := by
        rw [any_key_eq_lookup, hv]; rfl
      have hpi : pyIndex (.obj m) "properties" = .ok v := by simp [pyIndex, hv]
      by_cases ht : pyTruthy v = true
      · cases v with
        | obj pm => simp [hc, hpi, ht, pyKeys, featKeysOf, hv]
        | null => exact absurd ht (by simp [pyTruthy])
        | bool b2 =>
          simp only [keysOk, hv] at hk
          simp [ht] at hk
        | num n2 =>
          simp only [keysOk, hv] at hk
          simp [ht] at hk
        | str s2 =>
          simp only [keysOk, hv] at hk
          simp [ht] at hk
        | arr l2 =>
          simp only [keysOk, hv] at hk
          simp [ht] at hk
      · simp [hc, hpi, ht, featKeysOf, hv, addKeys_nil]

theorem geoStep_ok (f g : Json) (h : geoStep f = .ok g) : g = geoTypeOf f := by
  cases f with
  | null => exact absurd h (by simp [geoStep, pyGetD])
  | bool b => exact absurd h (by simp [geoStep, pyGetD])
  | num n => exact absurd h (by simp [geoStep, pyGetD])
  | str s => exact absurd h (by simp [geoStep, pyGetD])
  | arr l => exact absurd h (by simp [geoStep, pyGetD])
  | obj m =>
    simp only [geoStep, pyGetD] at h
    cases hv : List.lookup "geometry" m with
    | none =>
      rw [hv] at h
      simp only [Option.getD_none] at h
      injection h with h'
      rw [← h']
      simp [geoTypeOf, hv]
    | some v =>
      rw [hv] at h
      simp only [Option.getD_some] at h
      cases v with
      | obj g2 =>
        injection h with h'
        rw [← h']
        simp [geoTypeOf, hv]
      | null => exact absurd h (by simp)
      | bool b2 => exact absurd h (by simp)
      | num n2 => exact absurd h (by simp)
      | str s2 => exact absurd h (by simp)
      | arr l2 => exact absurd h (by simp)

theorem geoStep_of_geomOk (f : Json) (hg : geomOk f = true) :
    geoStep f = .ok (geoTypeOf f) := by
  cases f with
  | null => exact absurd hg (by simp [geomOk])
  | bool b => exact absurd hg (by simp [geomOk])
  | num n => exact absurd hg (by simp [geomOk])
  | str s => exact absurd hg (by simp [geomOk])
  | arr l => exact absurd hg (by simp [geomOk])
  | obj m =>
    simp only [geoStep, pyGetD]
    cases hv : List.lookup "geometry" m with
    | none => simp [geoTypeOf, hv]
    | some v =>
      cases v with
      | obj g2 => simp [geoTypeOf, hv]
      | null => simp [geomOk, hv] at hg
      | bool b2 => simp [geomOk, hv] at hg
      | num n2 => simp [geomOk, hv] at hg
      | str s2 => simp [geomOk, hv] at hg
      | arr l2 => simp [geomOk, hv] at hg

theorem geoTypeOf_str_of_geomOk (f : Json) (hg : geomOk f = true) :
    ∃ s, geoTypeOf f = .str s := by
  cases f with
  | null => exact absurd hg (by simp [geomOk])
  | bool b => exact absurd hg (by simp [geomOk])
  | num n => exact absurd hg (by simp [geomOk])
  | str s => exact absurd hg (by simp [geomOk])
  | arr l => exact absurd hg (by simp [geomOk])
  | obj m =>
    cases hv : List.lookup "geometry" m with
    | none => exact ⟨"Unknown", by simp [geoTypeOf, hv]⟩
    | some v =>
      cases v with
      | obj g2 =>
        cases hv2 : List.lookup "type" g2 with
        | none => exact ⟨"Unknown", by simp [geoTypeOf, hv, hv2]⟩
        | some w =>
          cases w with
          | str s2 => exact ⟨s2, by simp [geoTypeOf, hv, hv2]⟩
          | null => simp [geomOk, hv, hv2] at hg
          | bool b2 => simp [geomOk, hv, hv2] at hg
          | num n2 => simp [geomOk, hv, hv2] at hg
          | arr l2 => simp [geomOk, hv, hv2] at hg
          | obj o2 => simp [geomOk, hv, hv2] at hg
      | null => simp [geomOk, hv] at hg
      | bool b2 => simp [geomOk, hv] at hg
      | num n2 => simp [geomOk, hv] at hg
      | str s2 => simp [geomOk, hv] at hg
      | arr l2 => simp [geomOk, hv] at hg

theorem bump_ok (ft ft2 : List (Json × Nat)) (g : Json)
    (h : bump ft g = .ok ft2) : ft2 = bumpTally ft g := by
  cases g with
  | null => injection h with h'; exact h'.symm
  | bool b => injection h with h'; exact h'.symm
  | num n => injection h with h'; exact h'.symm
  | str s => injection h with h'; exact h'.symm
  | arr l => exact absurd h (by simp [bump])
  | obj m => exact absurd h (by simp [bump])

theorem bump_of_str (ft : List (Json × Nat)) (s : String) :
    bump ft (.str s) = .ok (bumpTally ft (.str s)) := rfl

theorem collectKeys_ok :
    ∀ (fs : List Json) (acc k : List String),
      collectKeys fs acc = .ok k → k = keysFold acc fs
  | [], acc, k, h => by
    injection h with h'
    rw [← h']
    rfl
  | f :: rest, acc, k, h => by
    unfold collectKeys at h
    cases hs : collectStep acc f with
    | error e => rw [hs] at h; exact absurd h (by simp)
    | ok acc2 =>
      rw [hs] at h
      have h2 := collectKeys_ok rest acc2 k h
      rw [h2, collectStep_ok acc f acc2 hs]
      rfl

theorem collectKeys_of_keysOk :
    ∀ (fs : List Json) (acc : List String), (∀ f ∈ fs, keysOk f = true) →
      collectKeys fs acc = .ok (keysFold acc fs)
  | [], acc, _ => rfl
  | f :: rest, acc, hall => by
    unfold collectKeys
    rw [collectStep_of_keysOk acc f (hall f (List.mem_cons_self f rest))]
    exact collectKeys_of_keysOk rest _ fun x hx => hall x (List.mem_cons_of_mem f hx)

theorem analyzeLoop_ok :
    ∀ (fs : List Json) (ft : List (Json × Nat)) (pk : List String)
      (gt : List (Json × Nat)) (pk2 : List String),
      analyzeLoop fs ft pk = .ok (gt, pk2) →
      gt = tallyFold ft fs ∧ pk2 = keysFold pk fs
  | [], ft, pk, gt, pk2, h => by
    injection h with h'
    injection h' with h1 h2
    exact ⟨h1.symm, h2.symm⟩
  | f :: rest, ft, pk, gt, pk2, h => by
    unfold analyzeLoop at h
    cases hg : geoStep f with
    | error e => rw [hg] at h; exact absurd h (by simp)
    | ok g =>
      rw [hg] at h
      dsimp only at h
      cases hb : bump ft g with
      | error e => rw [hb] at h; exact absurd h (by simp)
      | ok ft2 =>
        rw [hb] at h
        dsimp only at h
        cases hs : collectStep pk f with
        | error e => rw [hs] at h; exact absurd h (by simp)
        | ok pk2a =>
          rw [hs] at h
          dsimp only at h
          obtain ⟨ih1, ih2⟩ := analyzeLoop_ok rest ft2 pk2a gt pk2 h
          constructor
          · rw [ih1, bump_ok ft ft2 g hb, geoStep_ok f g hg]
            rfl
          · rw [ih2, collectStep_ok pk f pk2a hs]
            rfl

theorem analyzeLoop_of_featureOk :
    ∀ (fs : List Json) (ft : List (Json × Nat)) (pk : List String),
      (∀ f ∈ fs, featureOk f = true) →
      analyzeLoop fs ft pk = .ok (tallyFold ft fs, keysFold pk fs)
  | [], ft, pk, _ => rfl
  | f :: rest, ft, pk, hall => by
    have hf := hall f (List.mem_cons_self f rest)
    rw [featureOk, Bool.and_eq_true] at hf
    obtain ⟨s, hst⟩ := geoTypeOf_str_of_geomOk f hf.1
    unfold analyzeLoop
    rw [geoStep_of_geomOk f hf.1]
    dsimp only
    rw [hst, bump_of_str]
    dsimp only
    rw [collectStep_of_keysOk pk f hf.2]
    dsimp only
    rw [analyzeLoop_of_featureOk rest _ _ fun x hx => hall x (List.mem_cons_of_mem f hx)]
    show Except.ok (tallyFold (bumpTally ft (.str s)) rest,
      keysFold (addKeys pk (featKeysOf f)) rest) = _
    rw [← hst]
    rfl

theorem featurePropsKeys_ok (m : List (String × Json)) (pks : Option (List String))
    (h : featurePropsKeys (.obj m) = .ok pks) : pks.isSome = propsPresentTruthy m := by
  simp only [featurePropsKeys, pyContains] at h
  cases hv : List.lookup "properties" m with
  | none =>
    have hc : (m.any fun p => p.1 == "properties") = false := by
      rw [any_key_eq_lookup, hv]; rfl
    rw [hc] at h
    simp at h
    rw [← h]
    simp [propsPresentTruthy, hv]
  | some v =>
    have hc : (m.any fun p => p.1 == "properties") = true := by
      rw [any_key_eq_lookup, hv]; rfl
    rw [hc] at h
    rw [if_pos rfl] at h
    have hpi : pyIndex (.obj m) "properties" = .ok v := by simp [pyIndex, hv]
    rw [hpi] at h
    dsimp only at h
    by_cases ht : pyTruthy v = true
    · rw [if_pos ht] at h
      cases v with
      | obj pm =>
        simp only [pyKeys] at h
        injection h with h'
        rw [← h']
        simp [propsPresentTruthy, hv, ht]
      | null => exact absurd h (by simp [pyKeys])
      | bool b2 => exact absurd h (by simp [pyKeys])
      | num n2 => exact absurd h (by simp [pyKeys])
      | str s2 => exact absurd h (by simp [pyKeys])
      | arr l2 => exact absurd h (by simp [pyKeys])
    · rw [if_neg ht] at h
      injection h with h'
      rw [← h']
      simp [propsPresentTruthy, hv, ht]

/-! ### Claim C6 -/

/-- C6 counterexample: for a `FeatureCollection` with no properties anywhere
(here: an empty `features` array) the report still carries `property_keys`
(as the empty list) — the field is not absent when no properties exist. -/
theorem analyze_property_keys_on_empty_collection :
    analyze_geojson (.obj [("type", .str "FeatureCollection"), ("features", .arr [])]) =
      .ok ⟨.str "FeatureCollection", some 0, some [], none, some []⟩ := rfl

/-- C6 amended: whenever `analyze_geojson` returns a report for an object
input, the report carries `property_keys` exactly when the `type` is
`"FeatureCollection"` (where it is always present, possibly empty), or the
`type` is `"Feature"` and the document has a present and truthy (non-empty)
`properties` entry; for all other types the field is absent. -/
theorem analyze_property_keys_presence (m : List (String × Json)) (a : Analysis)
    (h : analyze_geojson (.obj m) = .ok a) :
    a.property_keys.isSome =
      (decide ((List.lookup "type" m).getD (.str "Unknown") = .str "FeatureCollection")
       || (decide ((List.lookup "type" m).getD (.str "Unknown") = .str "Feature")
           && propsPresentTruthy m)) := by
  simp only [analyze_geojson, pyGetD] at h
  by_cases h1 : (List.lookup "type" m).getD (.str "Unknown") = .str "FeatureCollection"
  · rw [if_pos h1] at h
    cases hn : pyLen ((List.lookup "features" m).getD (.arr [])) with
    | error e => rw [hn] at h; exact absurd h (by simp)
    | ok n =>
      rw [hn] at h
      dsimp only at h
      cases hi : pyIterate ((List.lookup "features" m).getD (.arr [])) with
      | error e => rw [hi] at h; exact absurd h (by simp)
      | ok items =>
        rw [hi] at h
        dsimp only at h
        cases hl : analyzeLoop items [] [] with
        | error e => rw [hl] at h; exact absurd h (by simp)
        | ok r =>
          obtain ⟨ft, pk⟩ := r
          rw [hl] at h
          dsimp only at h
          injection h with h'
          rw [← h']
          simp [h1]
  · rw [if_neg h1] at h
    by_cases h2 : (List.lookup "type" m).getD (.str "Unknown") = .str "Feature"
    · rw [if_pos h2] at h
      cases hg : geoStep (.obj m) with
      | error e => rw [hg] at h; exact absurd h (by simp)
      | ok g =>
        rw [hg] at h
        dsimp only at h
        cases hp : featurePropsKeys (.obj m) with
        | error e => rw [hp] at h; exact absurd h (by simp)
        | ok pks =>
          rw [hp] at h
          dsimp only at h
          injection h with h'
          rw [← h']
          simp [h1, h2, featurePropsKeys_ok m pks hp]
    · rw [if_neg h2] at h
      by_cases h3 : (List.lookup "type" m).getD (.str "Unknown")
          ∈ geometryTypeNames.map Json.str
      · rw [if_pos h3] at h
        injection h with h'
        rw [← h']
        simp [h1, h2]
      · rw [if_neg h3] at h
        injection h with h'
        rw [← h']
        simp [h1, h2]

/-- Witness for C6 at a `Feature` without `properties` (field absent) and,
through the hypothesis, a successfully analyzed document. -/
theorem analyze_property_keys_presence_witness :
    (Analysis.property_keys
        ⟨.str "Feature", none, none, some (.str "Unknown"), none⟩).isSome
      = (decide ((List.lookup "type"
            [("type", Json.str "Feature"), ("geometry", Json.obj [])]).getD
              (.str "Unknown") = .str "FeatureCollection")
         || (decide ((List.lookup "type"
            [("type", Json.str "Feature"), ("geometry", Json.obj [])]).getD
              (.str "Unknown") = .str "Feature")
             && propsPresentTruthy
               [("type", Json.str "Feature"), ("geometry", Json.obj [])])) :=
  analyze_property_keys_presence
    [("type", .str "Feature"), ("geometry", .obj [])]
    ⟨.str "Feature", none, none, some (.str "Unknown"), none⟩ rfl

theorem lookupCount_bumpTally :
    ∀ (ft : List (Json × Nat)) (k g : Json),
      lookupCount (bumpTally ft k) g = lookupCount ft g + (if k = g then 1 else 0)
  | [], k, g => by
    by_cases h : k = g <;> simp [bumpTally, lookupCount, h]
  | (k0, n) :: rest, k, g => by
    by_cases hk : k0 = k
    · subst hk
      simp only [bumpTally, if_pos rfl]
      by_cases hg : k0 = g
      · simp [lookupCount, hg]
      · simp [lookupCount, hg]
    · simp only [bumpTally, if_neg hk]
      by_cases hg : k0 = g
      · have hkg : ¬(k = g) := fun h2 => hk (h2.symm ▸ hg)
        simp [lookupCount, hg, hkg]
      · simp [lookupCount, hg, lookupCount_bumpTally rest k g]

theorem lookupCount_tallyFold :
    ∀ (fs : List Json) (ft : List (Json × Nat)) (g : Json),
      lookupCount (tallyFold ft fs) g
        = lookupCount ft g + (fs.filter fun f => geoTypeOf f = g).length
  | [], ft, g => by simp [tallyFold]
  | f :: rest, ft, g => by
    show lookupCount (tallyFold (bumpTally ft (geoTypeOf f)) rest) g = _
    rw [lookupCount_tallyFold rest _ g, lookupCount_bumpTally]
    by_cases h : geoTypeOf f = g
    · simp [List.filter_cons, h]
      omega
    · simp [List.filter_cons, h]

/-! ### Claim C5 -/

/-- C5: for an object of type `"FeatureCollection"` whose `features` value is
a sequence (defaulting to empty when absent) of well-typed feature objects,
`analyze_geojson` reports `feature_count` equal to the sequence length and a
`geometry_types` tally in which every geometry-type value `g` is counted
exactly once per feature whose `geometry.type` (with `"Unknown"`
substituted at any missing level) equals `g`. -/
theorem analyze_collection_counts (m : List (String × Json)) (fs : List Json)
    (ht : (List.lookup "type" m).getD (.str "Unknown") = .str "FeatureCollection")
    (hf : (List.lookup "features" m).getD (.arr []) = .arr fs)
    (hok : ∀ f ∈ fs, featureOk f = true) :
    analyze_geojson (.obj m) =
      .ok ⟨.str "FeatureCollection", some fs.length, some (tallyFold [] fs), none,
        some (keysFold [] fs)⟩
    ∧ ∀ g : Json, lookupCount (tallyFold [] fs) g
        = (fs.filter fun f => geoTypeOf f = g).length := by
  constructor
  · simp only [analyze_geojson, pyGetD]
    rw [if_pos ht, hf]
    dsimp only [pyLen, pyIterate]
    rw [analyzeLoop_of_featureOk fs [] [] hok]
    dsimp only
    rw [ht]
  · intro g
    rw [lookupCount_tallyFold fs [] g]
    simp [lookupCount]

/-- Witness for C5: two features with `geometry.type = "Point"` give
`feature_count = 2` and `geometry_types = {"Point": 2}`. -/
theorem analyze_collection_counts_witness :
    analyze_geojson (.obj [("type", .str "FeatureCollection"),
        ("features", .arr
          [.obj [("type", .str "Feature"),
                 ("properties", .obj [("name", .str "a")]),
                 ("geometry", .obj [("type", .str "Point")])],
           .obj [("type", .str "Feature"),
                 ("properties", .obj [("name", .str "b")]),
                 ("geometry", .obj [("type", .str "Point")])]])]) =
      .ok ⟨.str "FeatureCollection", some 2, some [(.str "Point", 2)], none,
        some ["name"]⟩
    ∧ lookupCount [(.str "Point", 2)] (.str "Point") = 2 := by
  have h := analyze_collection_counts
    [("type", .str "FeatureCollection"),
     ("features", .arr
       [.obj [("type", .str "Feature"),
              ("properties", .obj [("name", .str "a")]),
              ("geometry", .obj [("type", .str "Point")])],
        .obj [("type", .str "Feature"),
              ("properties", .obj [("name", .str "b")]),
              ("geometry", .obj [("type", .str "Point")])]])]
    [.obj [("type", .str "Feature"),
           ("properties", .obj [("name", .str "a")]),
           ("geometry", .obj [("type", .str "Point")])],
     .obj [("type", .str "Feature"),
           ("properties", .obj [("name", .str "b")]),
           ("geometry", .obj [("type", .str "Point")])]]
    rfl rfl (by decide)
  exact ⟨h.1.trans rfl, (h.2 (.str "Point")).trans rfl⟩

theorem addKeys_toFinset :
    ∀ (ks acc : List String), (addKeys acc ks).toFinset = acc.toFinset ∪ ks.toFinset
  | [], acc => by simp [addKeys]
  | k :: ks, acc => by
    show (addKeys (if k ∈ acc then acc else acc ++ [k]) ks).toFinset = _
    rw [addKeys_toFinset ks _]
    by_cases h : k ∈ acc
    · rw [if_pos h]
      ext x
      simp only [Finset.mem_union, List.mem_toFinset, List.toFinset_cons,
        Finset.mem_insert]
      constructor
      · rintro (hx | hx)
        · exact Or.inl hx
        · exact Or.inr (Or.inr hx)
      · rintro (hx | rfl | hx)
        · exact Or.inl hx
        · exact Or.inl h
        · exact Or.inr hx
    · rw [if_neg h]
      ext x
      simp only [Finset.mem_union, List.mem_toFinset, List.mem_append,
        List.toFinset_cons, Finset.mem_insert, List.mem_singleton]
      tauto

theorem keysFold_toFinset :
    ∀ (fs : List Json) (acc : List String),
      (keysFold acc fs).toFinset = acc.toFinset ∪ keySetUnion fs
  | [], acc => by simp [keysFold, keySetUnion]
  | f :: rest, acc => by
    show (keysFold (addKeys acc (featKeysOf f)) rest).toFinset = _
    rw [keysFold_toFinset rest _, addKeys_toFinset]
    show _ = acc.toFinset ∪ ((featKeysOf f).toFinset ∪ keySetUnion rest)
    rw [Finset.union_assoc]

theorem keySetUnion_perm (fs fs' : List Json) (h : fs.Perm fs') :
    keySetUnion fs = keySetUnion fs' := by
  induction h with
  | nil => rfl
  | cons x h2 ih =>
    show (featKeysOf x).toFinset ∪ keySetUnion _ = (featKeysOf x).toFinset ∪ keySetUnion _
    rw [ih]
  | swap x y l =>
    show (featKeysOf y).toFinset ∪ ((featKeysOf x).toFinset ∪ keySetUnion l)
      = (featKeysOf x).toFinset ∪ ((featKeysOf y).toFinset ∪ keySetUnion l)
    exact Finset.union_left_comm _ _ _
  | trans h1 h2 ih1 ih2 => rw [ih1, ih2]

theorem analyze_collection_key_set (m : List (String × Json)) (fs : List Json)
    (a : Analysis)
    (ht : (List.lookup "type" m).getD (.str "Unknown") = .str "FeatureCollection")
    (hf : (List.lookup "features" m).getD (.arr []) = .arr fs)
    (ha : analyze_geojson (.obj m) = .ok a) :
    a.property_keys.map List.toFinset = some (keySetUnion fs) := by
  simp only [analyze_geojson, pyGetD] at ha
  rw [if_pos ht, hf] at ha
  dsimp only [pyLen, pyIterate] at ha
  cases hl : analyzeLoop fs [] [] with
  | error e => rw [hl] at ha; exact absurd ha (by simp)
  | ok r =>
    obtain ⟨ft, pk⟩ := r
    rw [hl] at ha
    dsimp only at ha
    injection ha with h'
    rw [← h']
    obtain ⟨-, h2⟩ := analyzeLoop_ok fs [] [] ft pk hl
    show some pk.toFinset = some (keySetUnion fs)
    rw [h2, keysFold_toFinset]
    simp

/-! ### Claim C9 -/

/-- C9: analyzing a FeatureCollection and the same document with its
`features` sequence permuted yields the same `property_keys` set — the key
union is order-independent (and idempotent, duplicates collapsing through
the set-insert). -/
theorem analyze_property_keys_perm (m m2 : List (String × Json))
    (fs fs2 : List Json) (a a2 : Analysis)
    (ht : (List.lookup "type" m).getD (.str "Unknown") = .str "FeatureCollection")
    (ht2 : (List.lookup "type" m2).getD (.str "Unknown") = .str "FeatureCollection")
    (hf : (List.lookup "features" m).getD (.arr []) = .arr fs)
    (hf2 : (List.lookup "features" m2).getD (.arr []) = .arr fs2)
    (hperm : fs.Perm fs2)
    (ha : analyze_geojson (.obj m) = .ok a)
    (ha2 : analyze_geojson (.obj m2) = .ok a2) :
    a.property_keys.map List.toFinset = a2.property_keys.map List.toFinset := by
  rw [analyze_collection_key_set m fs a ht hf ha,
    analyze_collection_key_set m2 fs2 a2 ht2 hf2 ha2,
    keySetUnion_perm fs fs2 hperm]

/-- Witness for C9: the two-feature collection with features swapped. -/
theorem analyze_property_keys_perm_witness :
    (Analysis.property_keys ⟨.str "FeatureCollection", some 2,
        some [(.str "Point", 2)], none, some ["p", "q"]⟩).map List.toFinset
      = (Analysis.property_keys ⟨.str "FeatureCollection", some 2,
        some [(.str "Point", 2)], none, some ["q", "p"]⟩).map List.toFinset :=
  analyze_property_keys_perm
    [("type", .str "FeatureCollection"),
     ("features", .arr
       [.obj [("type", .str "Feature"),
              ("properties", .obj [("p", .num 1)]),
              ("geometry", .obj [("type", .str "Point")])],
        .obj [("type", .str "Feature"),
              ("properties", .obj [("q", .num 2)]),
              ("geometry", .obj [("type", .str "Point")])]])]
    [("type", .str "FeatureCollection"),
     ("features", .arr
       [.obj [("type", .str "Feature"),
              ("properties", .obj [("q", .num 2)]),
              ("geometry", .obj [("type", .str "Point")])],
        .obj [("type", .str "Feature"),
              ("properties", .obj [("p", .num 1)]),
              ("geometry", .obj [("type", .str "Point")])]])]
    [.obj [("type", .str "Feature"),
           ("properties", .obj [("p", .num 1)]),
           ("geometry", .obj [("type", .str "Point")])],
     .obj [("type", .str "Feature"),
           ("properties", .obj [("q", .num 2)]),
           ("geometry", .obj [("type", .str "Point")])]]
    [.obj [("type", .str "Feature"),
           ("properties", .obj [("q", .num 2)]),
           ("geometry", .obj [("type", .str "Point")])],
     .obj [("type", .str "Feature"),
           ("properties", .obj [("p", .num 1)]),
           ("geometry", .obj [("type", .str "Point")])]]
    ⟨.str "FeatureCollection", some 2, some [(.str "Point", 2)], none, some ["p", "q"]⟩
    ⟨.str "FeatureCollection", some 2, some [(.str "Point", 2)], none, some ["q", "p"]⟩
    rfl rfl rfl rfl
    (List.Perm.swap
      (Json.obj [("type", .str "Feature"),
                 ("properties", .obj [("q", .num 2)]),
                 ("geometry", .obj [("type", .str "Point")])])
      (Json.obj [("type", .str "Feature"),
                 ("properties", .obj [("p", .num 1)]),
                 ("geometry", .obj [("type", .str "Point")])])
      [])
    rfl rfl

theorem compare_collections (m1 m2 : List (String × Json)) (fs1 fs2 : List Json)
    (ht1 : List.lookup "type" m1 = some (.str "FeatureCollection"))
    (ht2 : List.lookup "type" m2 = some (.str "FeatureCollection"))
    (hf1 : (List.lookup "features" m1).getD (.arr []) = .arr fs1)
    (hf2 : (List.lookup "features" m2).getD (.arr []) = .arr fs2)
    (hk1 : ∀ f ∈ fs1, keysOk f = true) (hk2 : ∀ f ∈ fs2, keysOk f = true) :
    compare_geojson (.obj m1) (.obj m2) =
      .ok ⟨false, some fs1.length, some fs2.length,
        some ((fs1.length : Int) - (fs2.length : Int)),
        some ((keysFold [] fs1).filter fun s => s ∉ keysFold [] fs2),
        some ((keysFold [] fs2).filter fun s => s ∉ keysFold [] fs1),
        some ((keysFold [] fs1).filter fun s => s ∈ keysFold [] fs2)⟩ := by
  simp only [compare_geojson, pyGetOpt, pyGetD]
  rw [if_pos ⟨ht1, ht2⟩, hf1, hf2]
  dsimp only [pyLen, pyIterate]
  rw [collectKeys_of_keysOk fs1 [] hk1]
  dsimp only
  rw [collectKeys_of_keysOk fs2 [] hk2]
  dsimp only
  rw [ht1, ht2]
  rfl

/-! ### Claim C8 -/

/-- C8 counterexample: `X = {"type": "FeatureCollection", "features": [5]}`
passes `validate_geojson` (items of `features` are not schema-checked), yet
`compare_geojson X X` raises TypeError at `"properties" in feature` instead
of returning the claimed report — so the claim does not hold for every
valid FeatureCollection. -/
theorem compare_self_raises_counterexample :
    (validate_geojson (.obj [("type", .str "FeatureCollection"),
        ("features", .arr [.num 5])])).1 = true
    ∧ compare_geojson
        (.obj [("type", .str "FeatureCollection"), ("features", .arr [.num 5])])
        (.obj [("type", .str "FeatureCollection"), ("features", .arr [.num 5])])
      = .error "TypeError: argument is not iterable" :=
  ⟨rfl, rfl⟩

/-- C8 amended: for every valid FeatureCollection X whose features are all
objects with well-typed `properties` (present-and-truthy `properties` being
an object — the property-key extraction cannot raise), `compare_geojson X X`
returns `different_types = false`, equal counts with `feature_count_diff =
0`, empty `unique_keys_1`/`unique_keys_2`, and `common_keys` equal (as a
set) to the union of all property keys over the features of X. -/
theorem compare_self_reflexive (m : List (String × Json)) (fs : List Json)
    (_hvalid : (validate_geojson (.obj m)).1 = true)
    (ht : List.lookup "type" m = some (.str "FeatureCollection"))
    (hf : List.lookup "features" m = some (.arr fs))
    (hk : ∀ f ∈ fs, keysOk f = true) :
    compare_geojson (.obj m) (.obj m) =
      .ok ⟨false, some fs.length, some fs.length, some 0, some [], some [],
        some (keysFold [] fs)⟩
    ∧ (keysFold [] fs).toFinset = keySetUnion fs := by
  have hf2 : (List.lookup "features" m).getD (.arr []) = .arr fs := by rw [hf]; rfl
  constructor
  · rw [compare_collections m m fs fs ht ht hf2 hf2 hk hk]
    have e1 : ((fs.length : Int) - (fs.length : Int)) = 0 := by omega
    have e2 : ((keysFold [] fs).filter fun s => s ∉ keysFold [] fs) = [] :=
      List.filter_eq_nil_iff.mpr fun a ha => by simp [ha]
    have e3 : ((keysFold [] fs).filter fun s => s ∈ keysFold [] fs) = keysFold [] fs :=
      List.filter_eq_self.mpr fun a ha => by simp [ha]
    rw [e1, e2, e3]
  · rw [keysFold_toFinset]
    simp

/-- Witness for C8 at a one-feature collection with a `name` property. -/
theorem compare_self_reflexive_witness :
    compare_geojson
        (.obj [("type", .str "FeatureCollection"),
          ("features", .arr [.obj [("type", .str "Feature"),
            ("properties", .obj [("name", .str "x")]),
            ("geometry", .obj [("type", .str "Point")])]])])
        (.obj [("type", .str "FeatureCollection"),
          ("features", .arr [.obj [("type", .str "Feature"),
            ("properties", .obj [("name", .str "x")]),
            ("geometry", .obj [("type", .str "Point")])]])]) =
      .ok ⟨false, some 1, some 1, some 0, some [], some [], some ["name"]⟩ :=
  ((compare_self_reflexive
    [("type", .str "FeatureCollection"),
     ("features", .arr [.obj [("type", .str "Feature"),
       ("properties", .obj [("name", .str "x")]),
       ("geometry", .obj [("type", .str "Point")])]])]
    [.obj [("type", .str "Feature"),
      ("properties", .obj [("name", .str "x")]),
      ("geometry", .obj [("type", .str "Point")])]]
    rfl rfl rfl (by decide)).1).trans rfl

/-! ### Claim C10 -/

/-- C10: when both inputs are objects with `type = "FeatureCollection"` and
array-or-absent `features`, the three key lists of the comparison report,
viewed as sets, are pairwise disjoint and partition the key universe of
each side: `unique_keys_1 ∪ common_keys` is the union of all property keys
over the features of the first collection, and `unique_keys_2 ∪ common_keys`
that of the second. -/
theorem compare_keys_partition (m1 m2 : List (String × Json))
    (fs1 fs2 : List Json) (c : Comparison)
    (ht1 : List.lookup "type" m1 = some (.str "FeatureCollection"))
    (ht2 : List.lookup "type" m2 = some (.str "FeatureCollection"))
    (hf1 : (List.lookup "features" m1).getD (.arr []) = .arr fs1)
    (hf2 : (List.lookup "features" m2).getD (.arr []) = .arr fs2)
    (hc : compare_geojson (.obj m1) (.obj m2) = .ok c) :
    c.unique_keys_1.isSome = true ∧ c.unique_keys_2.isSome = true
    ∧ c.common_keys.isSome = true
    ∧ (∀ u1 u2 ck : List String,
        c.unique_keys_1 = some u1 → c.unique_keys_2 = some u2 →
        c.common_keys = some ck →
        u1.toFinset ∪ ck.toFinset = keySetUnion fs1
        ∧ u2.toFinset ∪ ck.toFinset = keySetUnion fs2
        ∧ u1.toFinset ∩ ck.toFinset = ∅
        ∧ u2.toFinset ∩ ck.toFinset = ∅
        ∧ u1.toFinset ∩ u2.toFinset = ∅) := by
  simp only [compare_geojson, pyGetOpt, pyGetD] at hc
  rw [if_pos ⟨ht1, ht2⟩, hf1, hf2] at hc
  dsimp only [pyLen, pyIterate] at hc
  cases hk1 : collectKeys fs1 [] with
  | error e => rw [hk1] at hc; exact absurd hc (by simp)
  | ok k1 =>
    rw [hk1] at hc
    dsimp only at hc
    cases hk2 : collectKeys fs2 [] with
    | error e => rw [hk2] at hc; exact absurd hc (by simp)
    | ok k2 =>
      rw [hk2] at hc
      dsimp only at hc
      have e1 : k1 = keysFold [] fs1 := collectKeys_ok fs1 [] k1 hk1
      have e2 : k2 = keysFold [] fs2 := collectKeys_ok fs2 [] k2 hk2
      subst e1
      subst e2
      injection hc with h'
      have hU1 : (keysFold [] fs1).toFinset = keySetUnion fs1 := by
        rw [keysFold_toFinset]; simp
      have hU2 : (keysFold [] fs2).toFinset = keySetUnion fs2 := by
        rw [keysFold_toFinset]; simp
      rw [← h']
      refine ⟨rfl, rfl, rfl, ?_⟩
      intro u1 u2 ck hu1 hu2 hck
      injection hu1 with hu1
      injection hu2 with hu2
      injection hck with hck
      subst hu1
      subst hu2
      subst hck
      rw [← hU1, ← hU2]
      refine ⟨?_, ?_, ?_, ?_, ?_⟩
      · ext x
        simp only [Finset.mem_union, List.mem_toFinset, List.mem_filter,
          decide_eq_true_eq]
        tauto
      · ext x
        simp only [Finset.mem_union, List.mem_toFinset, List.mem_filter,
          decide_eq_true_eq]
        tauto
      · ext x
        simp only [Finset.mem_inter, List.mem_toFinset, List.mem_filter,
          decide_eq_true_eq, Finset.not_mem_empty, iff_false]
        tauto
      · ext x
        simp only [Finset.mem_inter, List.mem_toFinset, List.mem_filter,
          decide_eq_true_eq, Finset.not_mem_empty, iff_false]
        tauto
      · ext x
        simp only [Finset.mem_inter, List.mem_toFinset, List.mem_filter,
          decide_eq_true_eq, Finset.not_mem_empty, iff_false]
        tauto

/-- Witness for C10: one-feature collections with keys {a, b} and {b, c}
give unique/common key sets {a}, {c}, {b} partitioning {a, b} and {b, c}. -/
theorem compare_keys_partition_witness :
    (["a"] : List String).toFinset ∪ (["b"] : List String).toFinset
      = keySetUnion [.obj [("properties", .obj [("a", .num 1), ("b", .num 2)])]]
    ∧ (["c"] : List String).toFinset ∪ (["b"] : List String).toFinset
      = keySetUnion [.obj [("properties", .obj [("b", .num 3), ("c", .num 4)])]]
    ∧ (["a"] : List String).toFinset ∩ (["b"] : List String).toFinset = ∅
    ∧ (["c"] : List String).toFinset ∩ (["b"] : List String).toFinset = ∅
    ∧ (["a"] : List String).toFinset ∩ (["c"] : List String).toFinset = ∅ :=
  (compare_keys_partition
    [("type", .str "FeatureCollection"),
     ("features", .arr [.obj [("properties", .obj [("a", .num 1), ("b", .num 2)])]])]
    [("type", .str "FeatureCollection"),
     ("features", .arr [.obj [("properties", .obj [("b", .num 3), ("c", .num 4)])]])]
    [.obj [("properties", .obj [("a", .num 1), ("b", .num 2)])]]
    [.obj [("properties", .obj [("b", .num 3), ("c", .num 4)])]]
    ⟨false, some 1, some 1, some 0, some ["a"], some ["c"], some ["b"]⟩
    rfl rfl rfl rfl rfl).2.2.2 ["a"] ["c"] ["b"] rfl rfl rfl
